import Mathlib

/-
Verification of the tag-number allocation / reconciliation / validation engine
of the campaign administration backend.

The definitions below are a shallow embedding of the JavaScript source:
  - syncTagCounters            (the reconciler)
  - POST /api/tags/generate    (the allocator)
  - POST /api/tags/sync        (the manual reconciliation endpoint)
  - tag validation inside POST /api/campaigns and PUT /api/campaigns/:id

The MongoDB collections are modelled as association lists:
  - tagCounters : List (String × Nat)   -- one (prefix, lastNumber) per entry
  - campaigns   : List Campaign
-/

namespace TagEngine

/-! ## JavaScript string primitives used by the source -/

/-- Whitespace characters recognised by JavaScript `String.prototype.trim`
and by `parseInt` (space, tab, LF, VT, FF, CR, NBSP, BOM). -/
def isJsWhitespace (c : Char) : Bool :=
  c.toNat = 32 || c.toNat = 9 || c.toNat = 10 || c.toNat = 11 ||
  c.toNat = 12 || c.toNat = 13 || c.toNat = 160 || c.toNat = 65279

/-- JavaScript `s.trim()`: strip leading and trailing whitespace. -/
def jsTrim (s : String) : String :=
  String.mk (((s.data.dropWhile isJsWhitespace).reverse.dropWhile isJsWhitespace).reverse)

/-- Value of a single character as a digit in the given radix,
as in JavaScript `parseInt` (0-9, a-z, A-Z). -/
def digitValue (radix : Nat) (c : Char) : Option Nat :=
  let v : Nat :=
    if 48 ≤ c.toNat ∧ c.toNat ≤ 57 then c.toNat - 48
    else if 97 ≤ c.toNat ∧ c.toNat ≤ 122 then c.toNat - 87
    else if 65 ≤ c.toNat ∧ c.toNat ≤ 90 then c.toNat - 55
    else 99
  if v < radix then some v else none

/-- Accumulate the longest leading run of digits; `none` when no digit was read. -/
def parseLeadingDigits (radix : Nat) : List Char → Option Nat → Option Nat
  | [], acc => acc
  | c :: cs, acc =>
    match digitValue radix c with
    | some d => parseLeadingDigits radix cs (some (acc.getD 0 * radix + d))
    | none => acc

/-- JavaScript `parseInt(s)` with no explicit radix: skip leading whitespace,
read an optional sign, detect a `0x`/`0X` hexadecimal marker (radix 16,
otherwise radix 10), then parse the longest leading digit run.
`none` models `NaN`. -/
def jsParseInt (s : String) : Option Int :=
  let cs := s.data.dropWhile isJsWhitespace
  let signAndRest : Int × List Char :=
    match cs with
    | '-' :: rest => (-1, rest)
    | '+' :: rest => (1, rest)
    | _ => (1, cs)
  let radixAndDigits : Nat × List Char :=
    match signAndRest.2 with
    | '0' :: 'x' :: rest => (16, rest)
    | '0' :: 'X' :: rest => (16, rest)
    | _ => (10, signAndRest.2)
  match parseLeadingDigits radixAndDigits.1 radixAndDigits.2 none with
  | some n => some (signAndRest.1 * (n : Int))
  | none => none

/-- JavaScript `String(n).padStart(5, '0')` applied to a rendered string. -/
def padStart5 (s : String) : String :=
  if 5 ≤ s.length then s else String.mk (List.replicate (5 - s.length) '0') ++ s

/-- Tag rendering used by the allocator and the counters endpoint:
the prefix followed by the number zero-padded to width 5. -/
def renderTag (pfx : String) (n : Nat) : String :=
  pfx ++ padStart5 (toString n)

/-! ## Data model -/

/-- A campaign channel; only the `tagNumber` field is relevant to the core.
`none` models a missing / null / non-string `tagNumber`. -/
structure Channel where
  tagNumber : Option String
deriving DecidableEq

/-- A persisted campaign document. `mongoId` models the document storage
identifier `_id.toString()`; `campaignId` the human-readable code. -/
structure Campaign where
  mongoId : String
  campaignId : Option String
  channels : List Channel
deriving DecidableEq

/-- `tagCounters.findOne({ prefix: p })`, reading `lastNumber` of the first
document whose key matches. -/
def findCounter : List (String × Nat) → String → Option Nat
  | [], _ => none
  | (q, n) :: rest, p => if q = p then some n else findCounter rest p

/-- `tagCounters.updateOne({ prefix: p }, { $set: { lastNumber: n } },
{ upsert: true })`: replace the value of the first matching document,
or append a new document when none matches. -/
def upsertCounter : List (String × Nat) → String → Nat → List (String × Nat)
  | [], p, n => [(p, n)]
  | (q, m) :: rest, p, n =>
    if q = p then (q, n) :: rest else (q, m) :: upsertCounter rest p n

/-! ## The reconciler: syncTagCounters -/

/-- The per-channel scan step of `syncTagCounters`: truthiness test on
`tagNumber`, trim, minimum length 3, split into a fixed 2-character prefix
and a `parseInt` of the rest, rejecting `NaN` and negative values. -/
def parseObservedTag (tag : Option String) : Option (String × Nat) :=
  match tag with
  | none => none
  | some raw =>
    if raw = "" then none
    else
      let t := jsTrim raw
      if t = "" then none
      else if t.length < 3 then none
      else
        match jsParseInt (String.mk (t.data.drop 2)) with
        | none => none
        | some n => if n < 0 then none else some (String.mk (t.data.take 2), n.toNat)

/-- All (prefix, number) pairs observed while scanning every channel of every
campaign, in traversal order. -/
def observedTagPairs (campaigns : List Campaign) : List (String × Nat) :=
  List.flatten (campaigns.map (fun c =>
    c.channels.filterMap (fun ch => parseObservedTag ch.tagNumber)))

/-- First-occurrence deduplication (JavaScript object-key / `Set` insertion
order), with an accumulator of already-seen values. -/
def dedupFirstAux : List String → List String → List String
  | [], _ => []
  | x :: xs, seen =>
    if seen.contains x then dedupFirstAux xs seen
    else x :: dedupFirstAux xs (x :: seen)

/-- First-occurrence deduplication of a list of strings. -/
def dedupFirst (l : List String) : List String :=
  dedupFirstAux l []

/-- The numbers collected for one prefix, in traversal order
(`tagNumbersByPrefix[prefix]`). -/
def numbersForPfx (pairs : List (String × Nat)) (p : String) : List Nat :=
  (pairs.filter (fun q => q.1 = p)).map Prod.snd

/-- `Math.max(...validNumbers)` over the (always non-negative, always
non-empty) number list of one prefix.  The source re-filters the list for
`NaN` and negative values; that filter is the identity here because
`parseObservedTag` already rejected both. -/
def maxObserved (pairs : List (String × Nat)) (p : String) : Nat :=
  (numbersForPfx pairs p).foldl max 0

/-- The ordered list of counter writes performed by `syncTagCounters`:
one `$set { lastNumber: maxObserved }` upsert per observed prefix, in
object-key insertion order. -/
def syncWrites (campaigns : List Campaign) : List (String × Nat) :=
  (dedupFirst ((observedTagPairs campaigns).map Prod.fst)).map
    (fun p => (p, maxObserved (observedTagPairs campaigns) p))

/-- Execute a list of counter writes left to right. -/
def applyWrites (counters : List (String × Nat)) (ws : List (String × Nat)) :
    List (String × Nat) :=
  ws.foldl (fun s pr => upsertCounter s pr.1 pr.2) counters

/-- `syncTagCounters()`: scan all campaigns, group observed tag numbers by
their 2-character prefix, and upsert each prefix counter to the maximum
observed number.  The final loop of the source over `existingCounters`
only logs (prefixes with no observed tags are left untouched). -/
def syncTagCounters (campaigns : List Campaign) (counters : List (String × Nat)) :
    List (String × Nat) :=
  applyWrites counters (syncWrites campaigns)

/-! ## The allocator: POST /api/tags/generate -/

/-- The static channel-type-to-prefix lookup: the long conditional chain of
the generate endpoint, applied to the trimmed channel type.  `none` models
the final `else` branch (unknown channel type, 400 response). -/
def channelTypeToPfx (t : String) : Option String :=
  match t with
  | "Instagram" => some "IG"
  | "Facebook" => some "FB"
  | "TikTok" => some "TT"
  | "YouTube" => some "YT"
  | "Snapchat" => some "SC"
  | "Google" => some "GG"
  | "WhatsApp Group" => some "WA"
  | "Gold councils" => some "GT"
  | "Residential Community" => some "RC"
  | "Lang/Cultural group" => some "LC"
  | "Religious group" => some "RG"
  | "Bluecollar Camp" => some "BC"
  | "Neighbourhood Community" => some "NC"
  | "Social organisations" => some "SO"
  | "Event" => some "EV"
  | "Exhibition" => some "EX"
  | "Channel Partners" => some "CP"
  | "Corporate Partners" => some "CO"
  | "Hotel" => some "HT"
  | "Tour Driver" => some "TD"
  | "Tours&Travel Agency" => some "TC"
  | "New collection Launch" => some "PL"
  | "Website" => some "WS"
  | "Email" => some "EM"
  | "SMS" => some "SMS"
  | "Print Media" => some "PM"
  | "Radio" => some "RD"
  | "Television" => some "TV"
  | "Referral" => some "RF"
  | "Storefront" => some "SF"
  | "Outdoor Ads" => some "OA"
  | "Others" => some "OT"
  | _ => none

/-- `campaigns.findOne({ 'channels.tagNumber': tag })` converted to a
truth value: some persisted channel carries exactly this raw tag string. -/
def tagExistsInCampaigns (campaigns : List Campaign) (tag : String) : Bool :=
  campaigns.any (fun c => c.channels.any (fun ch => ch.tagNumber = some tag))

/-- Response of the generate endpoint: a 400 error or the JSON payload
carrying the tag string, the prefix and the counter value used. -/
inductive GenResult where
  | badRequest (msg : String)
  | ok (tagNumber : String) (pfx : String) (counter : Nat)
deriving DecidableEq

/-- The generate endpoint as a state transformer: response paired with the
resulting tag-counter store.  Mirrors the source: trim and check the channel
type, resolve the prefix, read the counter (inserting `lastNumber = 0` when
absent), form the candidate `lastNumber + 1`, check it against persisted
channels, and on a hit advance exactly one more step without re-checking;
the final `$set` upsert of `lastNumber` happens before the response. -/
def generateTag (channelType : String) (counters : List (String × Nat))
    (campaigns : List Campaign) : GenResult × List (String × Nat) :=
  let trimmed := jsTrim channelType
  if trimmed = "" then
    (GenResult.badRequest "Please select a channel type", counters)
  else
    match channelTypeToPfx trimmed with
    | none => (GenResult.badRequest "Unknown channel type", counters)
    | some p =>
      let readState :=
        match findCounter counters p with
        | some l => (l, counters)
        | none => (0, counters ++ [(p, 0)])
      let nextNumber := readState.1 + 1
      let newTagNumber := renderTag p nextNumber
      if tagExistsInCampaigns campaigns newTagNumber then
        (GenResult.ok (renderTag p (nextNumber + 1)) p (nextNumber + 1),
          upsertCounter readState.2 p (nextNumber + 1))
      else
        (GenResult.ok newTagNumber p nextNumber,
          upsertCounter readState.2 p nextNumber)

/-- One observable step of the generate endpoint, in execution order:
a counter-document insert, a counter upsert, or the HTTP response. -/
inductive DbEvent where
  | counterInsert (pfx : String) (lastNumber : Nat)
  | counterUpsert (pfx : String) (lastNumber : Nat)
  | respond (r : GenResult)
deriving DecidableEq

/-- The generate endpoint as its ordered event trace, mirroring the same
control flow as `generateTag`: the `insertOne` for a missing counter, then
the `$set` upsert of the consumed number, then the response. -/
def generateTagTrace (channelType : String) (counters : List (String × Nat))
    (campaigns : List Campaign) : List DbEvent :=
  let trimmed := jsTrim channelType
  if trimmed = "" then
    [DbEvent.respond (GenResult.badRequest "Please select a channel type")]
  else
    match channelTypeToPfx trimmed with
    | none => [DbEvent.respond (GenResult.badRequest "Unknown channel type")]
    | some p =>
      let readState :=
        match findCounter counters p with
        | some l => (l, ([] : List DbEvent))
        | none => (0, [DbEvent.counterInsert p 0])
      let nextNumber := readState.1 + 1
      let newTagNumber := renderTag p nextNumber
      if tagExistsInCampaigns campaigns newTagNumber then
        readState.2 ++
          [DbEvent.counterUpsert p (nextNumber + 1),
           DbEvent.respond (GenResult.ok (renderTag p (nextNumber + 1)) p (nextNumber + 1))]
      else
        readState.2 ++
          [DbEvent.counterUpsert p nextNumber,
           DbEvent.respond (GenResult.ok newTagNumber p nextNumber)]

/-! ## The campaign tag validator -/

/-- Outcome of the tag-uniqueness validation of a campaign submission. -/
inductive ValidationResult where
  | ok
  | duplicateInCampaign (tags : List String)
  | duplicateAcrossCampaigns (tags : List String)
deriving DecidableEq

/-- The submitted-tag collection of the create/update handlers:
`channels.map(c => c.tagNumber).filter(t => t !== null && t !== undefined &&
typeof t === 'string' && t.trim() !== '').map(t => t.trim())`. -/
def extractSubmittedTags (channels : List Channel) : List String :=
  (((channels.map Channel.tagNumber).filterMap id).filter
    (fun t => jsTrim t ≠ "")).map jsTrim

/-- `tags.filter((tag, index) => tags.indexOf(tag) !== index)`: every
occurrence of a value after its first. -/
def duplicatesIn (tags : List String) : List String :=
  (tags.enum.filter (fun pr => tags.indexOf pr.2 != pr.1)).map Prod.snd

/-- The raw persisted tags of a channel list, as collected into the
`existingTags` set: the truthiness test `if (channel.tagNumber)` keeps any
present non-empty string, with no trimming. -/
def rawChannelTags (channels : List Channel) : List String :=
  channels.filterMap (fun ch =>
    match ch.tagNumber with
    | some t => if t = "" then none else some t
    | none => none)

/-- The persisted tags the update handler compares against: every campaign
except the one whose storage identifier `_id.toString()` equals the id
being updated (`campaign._id.toString() !== campaignId`). -/
def collectTagsExcluding (cid : String) (campaigns : List Campaign) : List String :=
  List.flatten (campaigns.map (fun c =>
    if c.mongoId = cid then [] else rawChannelTags c.channels))

/-- Shared validation core of the create and update handlers: when any tag
was submitted, first the intra-submission duplicate check (JavaScript `Set`
size versus list length, reporting deduplicated repeated values), then the
cross-campaign check (submitted trimmed tags filtered by membership in the
raw persisted-tag set). -/
def validateTagsCore (tags : List String) (existingTags : List String) :
    ValidationResult :=
  if tags = [] then ValidationResult.ok
  else if (dedupFirst tags).length != tags.length then
    ValidationResult.duplicateInCampaign (dedupFirst (duplicatesIn tags))
  else if tags.filter (fun t => existingTags.contains t) = [] then
    ValidationResult.ok
  else
    ValidationResult.duplicateAcrossCampaigns
      (tags.filter (fun t => existingTags.contains t))

/-- Tag validation of POST /api/campaigns: the cross-campaign set is built
from all persisted campaigns. -/
def validateCreateTags (channels : List Channel) (existing : List Campaign) :
    ValidationResult :=
  validateTagsCore (extractSubmittedTags channels)
    (List.flatten (existing.map (fun c => rawChannelTags c.channels)))

/-- Tag validation of PUT /api/campaigns/:campaignId: the campaign with the
matching storage identifier is excluded from the cross-campaign set. -/
def validateUpdateTags (cid : String) (channels : List Channel)
    (existing : List Campaign) : ValidationResult :=
  validateTagsCore (extractSubmittedTags channels) (collectTagsExcluding cid existing)

/-! ## The create / update handlers (tag-relevant core) -/

/-- The whole persistent state the claims quantify over: the campaign
collection and the tag-counter store. -/
structure Store where
  campaigns : List Campaign
  tagCounters : List (String × Nat)
deriving DecidableEq

/-- The tag-relevant fields of a submitted campaign body. -/
structure CampaignSubmission where
  campaignId : Option String
  channels : List Channel
deriving DecidableEq

/-- Outcome of a campaign create/update request. -/
inductive SaveResult where
  | saved (campaignId : String)
  | validationError (r : ValidationResult)
  | notFound
deriving DecidableEq

/-- `campaigns.updateOne({ campaignId }, { $set: campaignData },
{ upsert: true })`: replace the channels of the first campaign carrying this
human-readable id, or append a new document (with a store-generated `_id`). -/
def saveByCampaignId (campaigns : List Campaign) (freshMongoId cid : String)
    (channels : List Channel) : List Campaign :=
  match campaigns with
  | [] => [⟨freshMongoId, some cid, channels⟩]
  | c :: rest =>
    if c.campaignId = some cid then ⟨c.mongoId, some cid, channels⟩ :: rest
    else c :: saveByCampaignId rest freshMongoId cid channels

/-- `campaigns.updateOne({ _id }, { $set: campaignData })`: replace the
channels of the campaign with this storage identifier. -/
def updateByMongoId (campaigns : List Campaign) (cid : String)
    (channels : List Channel) : List Campaign :=
  match campaigns with
  | [] => []
  | c :: rest =>
    if c.mongoId = cid then ⟨c.mongoId, c.campaignId, channels⟩ :: rest
    else c :: updateByMongoId rest cid channels

/-- POST /api/campaigns, tag-relevant core: validate, then (only on success)
assign the campaign id when missing, upsert the document, and run
`syncTagCounters` as the post-save consistency pass.  `freshMongoId` and
`newCampaignId` stand for the identifiers the environment generates on the
success path. -/
def createCampaignHandler (freshMongoId newCampaignId : String)
    (data : CampaignSubmission) (st : Store) : SaveResult × Store :=
  match validateCreateTags data.channels st.campaigns with
  | ValidationResult.ok =>
    let cid := data.campaignId.getD newCampaignId
    let campaigns1 := saveByCampaignId st.campaigns freshMongoId cid data.channels
    (SaveResult.saved cid, ⟨campaigns1, syncTagCounters campaigns1 st.tagCounters⟩)
  | r => (SaveResult.validationError r, st)

/-- PUT /api/campaigns/:campaignId, tag-relevant core: 404 when no campaign
carries the storage identifier, otherwise validate (excluding that campaign)
and only on success write the document and run `syncTagCounters`. -/
def updateCampaignHandler (cid : String) (channels : List Channel) (st : Store) :
    SaveResult × Store :=
  if st.campaigns.any (fun c => c.mongoId = cid) then
    match validateUpdateTags cid channels st.campaigns with
    | ValidationResult.ok =>
      let campaigns1 := updateByMongoId st.campaigns cid channels
      (SaveResult.saved cid, ⟨campaigns1, syncTagCounters campaigns1 st.tagCounters⟩)
    | r => (SaveResult.validationError r, st)
  else (SaveResult.notFound, st)

/-- Does a save attempt end in one of the two duplicate-validation errors? -/
def isDuplicateError : SaveResult → Bool
  | SaveResult.validationError (ValidationResult.duplicateInCampaign _) => true
  | SaveResult.validationError (ValidationResult.duplicateAcrossCampaigns _) => true
  | _ => false

/-! ## The manual sync endpoint: POST /api/tags/sync -/

/-- Response of the manual sync endpoint. -/
inductive SyncResponse where
  | success (msg : String)
  | serverError
deriving DecidableEq

/-- The body of `syncTagCounters` run against a campaign scan that may fail:
the whole body is wrapped in `try/catch`, and the `catch` only logs, so a
store error aborts the writes but the function still returns normally with
the counter store as it was. -/
def syncTagCountersRun (scan : Except String (List Campaign))
    (counters : List (String × Nat)) : List (String × Nat) :=
  match scan with
  | Except.ok campaigns => syncTagCounters campaigns counters
  | Except.error _ => counters

/-- POST /api/tags/sync: await `syncTagCounters()` and answer with the
success message.  Because `syncTagCounters` swallows its own errors, the
endpoint's `catch` branch (500 response) is unreachable for store failures
inside the sync. -/
def syncEndpoint (scan : Except String (List Campaign))
    (counters : List (String × Nat)) : SyncResponse × List (String × Nat) :=
  (SyncResponse.success "Tag counters synced successfully",
    syncTagCountersRun scan counters)

/-! ## Counter-store lemmas -/

theorem applyWrites_cons (s : List (String × Nat)) (w : String × Nat)
    (ws : List (String × Nat)) :
    applyWrites s (w :: ws) = applyWrites (upsertCounter s w.1 w.2) ws := rfl

theorem findCounter_upsert_self (s : List (String × Nat)) (p : String) (n : Nat) :
    findCounter (upsertCounter s p n) p = some n := by
  induction s with
  | nil => simp [upsertCounter, findCounter]
  | cons hd tl ih =>
    obtain ⟨q, m⟩ := hd
    by_cases h : q = p
    · simp [upsertCounter, h, findCounter]
    · simp [upsertCounter, h, findCounter, ih]

theorem findCounter_upsert_other (s : List (String × Nat)) (p q : String) (n : Nat)
    (h : q ≠ p) : findCounter (upsertCounter s q n) p = findCounter s p := by
  induction s with
  | nil => simp [upsertCounter, findCounter, h]
  | cons hd tl ih =>
    obtain ⟨r, m⟩ := hd
    by_cases hr : r = q
    · subst hr
      simp [upsertCounter, findCounter, h]
    · simp [upsertCounter, hr, findCounter, ih]

theorem findCounter_applyWrites_notin (ws : List (String × Nat))
    (s : List (String × Nat)) (p : String) (h : ∀ w ∈ ws, w.1 ≠ p) :
    findCounter (applyWrites s ws) p = findCounter s p := by
  induction ws generalizing s with
  | nil => rfl
  | cons w ws ih =>
    rw [applyWrites_cons, ih _ (fun x hx => h x (List.mem_cons_of_mem w hx)),
      findCounter_upsert_other _ _ _ _ (h w (List.mem_cons_self w ws))]

theorem upsertCounter_of_findCounter (s : List (String × Nat)) (p : String) (n : Nat)
    (h : findCounter s p = some n) : upsertCounter s p n = s := by
  induction s with
  | nil => simp [findCounter] at h
  | cons hd tl ih =>
    obtain ⟨q, m⟩ := hd
    by_cases hq : q = p
    · subst hq
      simp [findCounter] at h
      simp [upsertCounter, h]
    · simp [findCounter, hq] at h
      simp [upsertCounter, hq, ih h]

theorem applyWrites_idem (ws : List (String × Nat))
    (h : (ws.map Prod.fst).Nodup) (s : List (String × Nat)) :
    applyWrites (applyWrites s ws) ws = applyWrites s ws := by
  induction ws generalizing s with
  | nil => rfl
  | cons w ws ih =>
    obtain ⟨p, n⟩ := w
    rw [List.map_cons, List.nodup_cons] at h
    have hrest : ∀ x ∈ ws, x.1 ≠ p := by
      intro x hx hxp
      have hm : x.1 ∈ ws.map Prod.fst := List.mem_map_of_mem Prod.fst hx
      rw [hxp] at hm
      exact h.1 hm
    have hfind :
        findCounter (applyWrites (upsertCounter s p n) ws) p = some n := by
      rw [findCounter_applyWrites_notin ws _ p hrest, findCounter_upsert_self]
    rw [applyWrites_cons, applyWrites_cons]
    simp only
    rw [upsertCounter_of_findCounter _ _ _ hfind]
    exact ih h.2 (upsertCounter s p n)

/-! ## Deduplication lemmas -/

theorem mem_of_mem_dedupFirstAux {x : String} :
    ∀ {l seen : List String}, x ∈ dedupFirstAux l seen → x ∈ l := by
  intro l
  induction l with
  | nil => intro seen h; simp [dedupFirstAux] at h
  | cons y ys ih =>
    intro seen h
    rw [dedupFirstAux] at h
    by_cases hy : seen.contains y
    · simp only [hy, if_true] at h
      exact List.mem_cons_of_mem y (ih h)
    · simp only [hy, if_false] at h
      rcases List.mem_cons.mp h with h1 | h2
      · exact h1 ▸ List.mem_cons_self x ys
      · exact List.mem_cons_of_mem y (ih h2)

theorem not_seen_of_mem_dedupFirstAux {x : String} :
    ∀ {l seen : List String}, x ∈ dedupFirstAux l seen → seen.contains x = false := by
  intro l
  induction l with
  | nil => intro seen h; simp [dedupFirstAux] at h
  | cons y ys ih =>
    intro seen h
    rw [dedupFirstAux] at h
    by_cases hy : seen.contains y
    · simp only [hy, if_true] at h
      exact ih h
    · simp only [hy, if_false] at h
      rcases List.mem_cons.mp h with h1 | h2
      · subst h1
        simpa using hy
      · have := ih h2
        rw [List.contains_cons] at this
        exact (Bool.or_eq_false_iff.mp this).2

theorem dedupFirstAux_nodup : ∀ (l seen : List String), (dedupFirstAux l seen).Nodup := by
  intro l
  induction l with
  | nil => intro seen; simp [dedupFirstAux]
  | cons y ys ih =>
    intro seen
    rw [dedupFirstAux]
    by_cases hy : seen.contains y
    · simp only [hy, if_true]
      exact ih seen
    · simp only [hy, if_false]
      refine List.nodup_cons.mpr ⟨?_, ih (y :: seen)⟩
      intro hmem
      have := not_seen_of_mem_dedupFirstAux hmem
      simp [List.contains_cons] at this

theorem dedupFirst_nodup (l : List String) : (dedupFirst l).Nodup :=
  dedupFirstAux_nodup l []

theorem syncWrites_keys_nodup (campaigns : List Campaign) :
    ((syncWrites campaigns).map Prod.fst).Nodup := by
  rw [syncWrites, List.map_map]
  have hc : (Prod.fst ∘ fun p => (p, maxObserved (observedTagPairs campaigns) p)) = id := by
    funext x
    rfl
  rw [hc, List.map_id]
  exact dedupFirst_nodup _

/-! ## Allocator lemmas -/

theorem channelTypeToPfx_empty : channelTypeToPfx "" = none := by decide

theorem jsTrim_ne_of_resolved {ct p : String}
    (hp : channelTypeToPfx (jsTrim ct) = some p) : ¬jsTrim ct = "" := by
  intro h
  rw [h, channelTypeToPfx_empty] at hp
  exact Option.noConfusion hp

theorem generateTag_found_free (ct p : String) (L : Nat)
    (counters : List (String × Nat)) (campaigns : List Campaign)
    (hp : channelTypeToPfx (jsTrim ct) = some p)
    (hL : findCounter counters p = some L)
    (hfree : tagExistsInCampaigns campaigns (renderTag p (L + 1)) = false) :
    generateTag ct counters campaigns =
      (GenResult.ok (renderTag p (L + 1)) p (L + 1), upsertCounter counters p (L + 1)) := by
  rw [generateTag]
  simp only [if_neg (jsTrim_ne_of_resolved hp), hp, hL, hfree]
  rfl

theorem generateTag_found_collision (ct p : String) (L : Nat)
    (counters : List (String × Nat)) (campaigns : List Campaign)
    (hp : channelTypeToPfx (jsTrim ct) = some p)
    (hL : findCounter counters p = some L)
    (hcol : tagExistsInCampaigns campaigns (renderTag p (L + 1)) = true) :
    generateTag ct counters campaigns =
      (GenResult.ok (renderTag p (L + 2)) p (L + 2), upsertCounter counters p (L + 2)) := by
  rw [generateTag]
  simp only [if_neg (jsTrim_ne_of_resolved hp), hp, hL, hcol]
  rfl

theorem generateTag_absent_free (ct p : String)
    (counters : List (String × Nat)) (campaigns : List Campaign)
    (hp : channelTypeToPfx (jsTrim ct) = some p)
    (hL : findCounter counters p = none)
    (hfree : tagExistsInCampaigns campaigns (renderTag p 1) = false) :
    generateTag ct counters campaigns =
      (GenResult.ok (renderTag p 1) p 1, upsertCounter (counters ++ [(p, 0)]) p 1) := by
  rw [generateTag]
  simp only [if_neg (jsTrim_ne_of_resolved hp), hp, hL, hfree]
  rfl

theorem generateTag_absent_collision (ct p : String)
    (counters : List (String × Nat)) (campaigns : List Campaign)
    (hp : channelTypeToPfx (jsTrim ct) = some p)
    (hL : findCounter counters p = none)
    (hcol : tagExistsInCampaigns campaigns (renderTag p 1) = true) :
    generateTag ct counters campaigns =
      (GenResult.ok (renderTag p 2) p 2, upsertCounter (counters ++ [(p, 0)]) p 2) := by
  rw [generateTag]
  simp only [if_neg (jsTrim_ne_of_resolved hp), hp, hL, hcol]
  rfl

theorem generateTagTrace_upsert_before_respond (ct p : String)
    (counters : List (String × Nat)) (campaigns : List Campaign)
    (hp : channelTypeToPfx (jsTrim ct) = some p) :
    ∃ i j n tag, i < j ∧
      (generateTagTrace ct counters campaigns).get? i = some (DbEvent.counterUpsert p n) ∧
      (generateTagTrace ct counters campaigns).get? j =
        some (DbEvent.respond (GenResult.ok tag p n)) := by
  rw [generateTagTrace]
  simp only [if_neg (jsTrim_ne_of_resolved hp), hp]
  cases hL : findCounter counters p with
  | some l =>
    simp only
    by_cases hcol : tagExistsInCampaigns campaigns (renderTag p (l + 1)) = true
    · refine ⟨0, 1, l + 1 + 1, renderTag p (l + 1 + 1), by omega, ?_, ?_⟩ <;>
        simp [hcol]
    · rw [Bool.not_eq_true] at hcol
      refine ⟨0, 1, l + 1, renderTag p (l + 1), by omega, ?_, ?_⟩ <;>
        simp [hcol]
  | none =>
    simp only
    by_cases hcol : tagExistsInCampaigns campaigns (renderTag p 1) = true
    · refine ⟨1, 2, 2, renderTag p 2, by omega, ?_, ?_⟩ <;>
        simp [hcol]
    · rw [Bool.not_eq_true] at hcol
      refine ⟨1, 2, 1, renderTag p 1, by omega, ?_, ?_⟩ <;>
        simp [hcol]

/-! ## Provenance of observed tag pairs -/

theorem parseObservedTag_pfx {raw p : String} {n : Nat}
    (h : parseObservedTag (some raw) = some (p, n)) :
    p = String.mk ((jsTrim raw).data.take 2) := by
  unfold parseObservedTag at h
  dsimp only at h
  split_ifs at h
  rcases hjs : jsParseInt (String.mk ((jsTrim raw).data.drop 2)) with _ | m
  · rw [hjs] at h
    exact absurd h (by simp)
  · rw [hjs] at h
    dsimp only at h
    split_ifs at h
    rw [Option.some_inj, Prod.mk.injEq] at h
    exact h.1.symm

theorem observedTagPairs_provenance {campaigns : List Campaign} {pr : String × Nat}
    (h : pr ∈ observedTagPairs campaigns) :
    ∃ c ∈ campaigns, ∃ ch ∈ c.channels, ∃ t, ch.tagNumber = some t ∧
      pr.1 = String.mk ((jsTrim t).data.take 2) := by
  rw [observedTagPairs, List.mem_flatten] at h
  rcases h with ⟨l, hl, hpr⟩
  rcases List.mem_map.mp hl with ⟨c, hc, rfl⟩
  rcases List.mem_filterMap.mp hpr with ⟨ch, hch, hparse⟩
  rcases ht : ch.tagNumber with _ | t
  · rw [ht] at hparse
    exact absurd hparse (by simp [parseObservedTag])
  · rw [ht] at hparse
    obtain ⟨p, m⟩ := pr
    exact ⟨c, hc, ch, hch, t, ht, parseObservedTag_pfx hparse⟩

theorem syncWrites_key_provenance {campaigns : List Campaign} {w : String × Nat}
    (h : w ∈ syncWrites campaigns) :
    ∃ c ∈ campaigns, ∃ ch ∈ c.channels, ∃ t, ch.tagNumber = some t ∧
      w.1 = String.mk ((jsTrim t).data.take 2) := by
  rw [syncWrites] at h
  rcases List.mem_map.mp h with ⟨q, hq, rfl⟩
  have hq2 : q ∈ (observedTagPairs campaigns).map Prod.fst :=
    mem_of_mem_dedupFirstAux hq
  rcases List.mem_map.mp hq2 with ⟨pr, hpr, rfl⟩
  rcases observedTagPairs_provenance hpr with ⟨c, hc, ch, hch, t, ht, hp⟩
  exact ⟨c, hc, ch, hch, t, ht, hp⟩

/-! ## Claim theorems -/

/-- C5: `reconcile()` is idempotent: with no intervening campaign or counter
writes, a second `syncTagCounters` pass leaves the counter store exactly as
the first pass left it. -/
theorem reconcile_idempotent (campaigns : List Campaign)
    (counters : List (String × Nat)) :
    syncTagCounters campaigns (syncTagCounters campaigns counters) =
      syncTagCounters campaigns counters :=
  applyWrites_idem (syncWrites campaigns) (syncWrites_keys_nodup campaigns) counters

/-- C1 (evaluation at the failing input): with the IG counter stored at 5 and
a single persisted tag IG00003 (the higher-numbered IG tags having been
deleted), `syncTagCounters` writes `lastNumber = 3`, strictly lowering the
stored counter — it does not write `max(5, 3) = 5`. -/
theorem sync_lowers_stored_counter :
    findCounter
      (syncTagCounters [⟨"c1", some "MK_000001", [⟨some "IG00003"⟩]⟩] [("IG", 5)])
      "IG" = some 3 ∧ 3 < 5 := by
  decide

/-- C3 (evaluation at the failing input): the allocator renders the SMS tag
for number 1 as "SMS00001", but the reconciler's split rule always takes a
2-character prefix, so the parse reads prefix "SM" and `parseInt("S00001")`
is `NaN`: the tag is skipped as malformed instead of parsing back to
("SMS", 1). -/
theorem sms_tag_not_parsed_back :
    renderTag "SMS" 1 = "SMS00001" ∧
    parseObservedTag (some (renderTag "SMS" 1)) = none := by
  decide

/-- C10: a tag whose suffix is digits followed by non-digits (IG12ab) is not
skipped by the reconciler: `parseInt` reads the leading digits, the tag
counts as ("IG", 12), and it can raise a stored counter (here from 5 to 12). -/
theorem garbage_suffix_tag_counted :
    parseObservedTag (some "IG12ab") = some ("IG", 12) ∧
    syncTagCounters [⟨"c1", none, [⟨some "IG12ab"⟩]⟩] [("IG", 5)] = [("IG", 12)] ∧
    5 < 12 := by
  decide

/-- C2: with the channel type resolving to prefix p and the stored counter
read as L (0 when the counter document is absent): when no persisted channel
carries the rendered tag for L+1, the endpoint returns that tag and commits
lastNumber = L+1; when one does, it returns the tag for L+2 and commits
lastNumber = L+2 — with no check of the skip-forward tag and no loop (the
collision branch is taken regardless of whether the L+2 tag also exists);
and in the event trace the counter upsert precedes the response. -/
theorem generate_next_or_single_skip (ct p : String) (L : Nat)
    (counters : List (String × Nat)) (campaigns : List Campaign)
    (hp : channelTypeToPfx (jsTrim ct) = some p)
    (hL : (findCounter counters p).getD 0 = L) :
    (tagExistsInCampaigns campaigns (renderTag p (L + 1)) = false →
      (generateTag ct counters campaigns).1 = GenResult.ok (renderTag p (L + 1)) p (L + 1) ∧
      findCounter (generateTag ct counters campaigns).2 p = some (L + 1)) ∧
    (tagExistsInCampaigns campaigns (renderTag p (L + 1)) = true →
      (generateTag ct counters campaigns).1 = GenResult.ok (renderTag p (L + 2)) p (L + 2) ∧
      findCounter (generateTag ct counters campaigns).2 p = some (L + 2)) ∧
    (∃ i j n tag, i < j ∧
      (generateTagTrace ct counters campaigns).get? i = some (DbEvent.counterUpsert p n) ∧
      (generateTagTrace ct counters campaigns).get? j =
        some (DbEvent.respond (GenResult.ok tag p n))) := by
  refine ⟨?_, ?_, generateTagTrace_upsert_before_respond ct p counters campaigns hp⟩
  · intro hfree
    cases hfind : findCounter counters p with
    | some l =>
      have hLeq : findCounter counters p = some L := by
        rw [hfind] at hL ⊢
        rw [Option.getD_some] at hL
        rw [hL]
      rw [generateTag_found_free ct p L counters campaigns hp hLeq hfree]
      exact ⟨rfl, findCounter_upsert_self counters p (L + 1)⟩
    | none =>
      have hL0 : L = 0 := by
        rw [hfind, Option.getD_none] at hL
        exact hL.symm
      subst hL0
      rw [generateTag_absent_free ct p counters campaigns hp hfind hfree]
      exact ⟨rfl, findCounter_upsert_self _ p 1⟩
  · intro hcol
    cases hfind : findCounter counters p with
    | some l =>
      have hLeq : findCounter counters p = some L := by
        rw [hfind] at hL ⊢
        rw [Option.getD_some] at hL
        rw [hL]
      rw [generateTag_found_collision ct p L counters campaigns hp hLeq hcol]
      exact ⟨rfl, findCounter_upsert_self counters p (L + 2)⟩
    | none =>
      have hL0 : L = 0 := by
        rw [hfind, Option.getD_none] at hL
        exact hL.symm
      subst hL0
      rw [generateTag_absent_collision ct p counters campaigns hp hfind hcol]
      exact ⟨rfl, findCounter_upsert_self _ p 2⟩

/-- Witness for C2: a fresh store, allocating for Instagram: the counter is
created at 0, the tag IG00001 is returned and lastNumber 1 committed, and the
trace upserts before responding. -/
theorem generate_next_or_single_skip_witness :
    (generateTag "Instagram" ([] : List (String × Nat)) ([] : List Campaign)).1 =
      GenResult.ok "IG00001" "IG" 1 ∧
    findCounter (generateTag "Instagram" ([] : List (String × Nat))
      ([] : List Campaign)).2 "IG" = some 1 ∧
    (∃ i j n tag, i < j ∧
      (generateTagTrace "Instagram" [] []).get? i = some (DbEvent.counterUpsert "IG" n) ∧
      (generateTagTrace "Instagram" [] []).get? j =
        some (DbEvent.respond (GenResult.ok tag "IG" n))) := by
  have h := generate_next_or_single_skip "Instagram" "IG" 0 [] [] (by decide) (by decide)
  have h1 := h.1 (by decide)
  exact ⟨h1.1.trans (by decide), h1.2, h.2.2⟩

/-- C4: if the IG counter is stored at 1 and every campaign containing an
IG-prefixed tag has been deleted (no remaining channel tag starts with IG
after trimming), then `syncTagCounters` leaves the IG counter record at 1
(neither reset to 0 nor deleted), and the next allocation for Instagram
returns IG00002, not IG00001. -/
theorem counter_preserved_after_deletions (counters : List (String × Nat))
    (campaigns : List Campaign)
    (hIG : findCounter counters "IG" = some 1)
    (hNoIG : ∀ c ∈ campaigns, ∀ ch ∈ c.channels, ∀ t, ch.tagNumber = some t →
      String.mk ((jsTrim t).data.take 2) ≠ "IG") :
    findCounter (syncTagCounters campaigns counters) "IG" = some 1 ∧
    (generateTag "Instagram" (syncTagCounters campaigns counters) campaigns).1 =
      GenResult.ok "IG00002" "IG" 2 := by
  have hw : ∀ w ∈ syncWrites campaigns, w.1 ≠ "IG" := by
    intro w hwmem hwIG
    rcases syncWrites_key_provenance hwmem with ⟨c, hc, ch, hch, t, ht, hp⟩
    exact hNoIG c hc ch hch t ht (hp ▸ hwIG)
  have hkeep : findCounter (syncTagCounters campaigns counters) "IG" = some 1 := by
    rw [syncTagCounters, findCounter_applyWrites_notin _ _ _ hw]
    exact hIG
  refine ⟨hkeep, ?_⟩
  have hfree : tagExistsInCampaigns campaigns (renderTag "IG" 2) = false := by
    rw [← Bool.not_eq_true, tagExistsInCampaigns]
    intro hany
    rcases List.any_eq_true.mp hany with ⟨c, hc, hcin⟩
    rcases List.any_eq_true.mp hcin with ⟨ch, hch, htag⟩
    rw [decide_eq_true_eq] at htag
    exact hNoIG c hc ch hch _ htag (by decide)
  have := generateTag_found_free "Instagram" "IG" 1
    (syncTagCounters campaigns counters) campaigns (by decide) hkeep hfree
  rw [this]
  exact congrArg (fun tg => GenResult.ok tg "IG" 2) (by decide)

/-- Witness for C4: counter IG at 1, every campaign deleted: the counter
survives reconciliation and the next Instagram allocation yields IG00002. -/
theorem counter_preserved_after_deletions_witness :
    findCounter (syncTagCounters [] [("IG", 1)]) "IG" = some 1 ∧
    (generateTag "Instagram" (syncTagCounters [] [("IG", 1)]) []).1 =
      GenResult.ok "IG00002" "IG" 2 :=
  counter_preserved_after_deletions [("IG", 1)] [] (by decide) (by simp)

/-- C6 counterexample: a submitted tag FB00010 equal up to surrounding
whitespace to the persisted tag "FB00010 " is NOT reported as a duplicate —
the validator passes, because persisted tags enter the comparison set
untrimmed. -/
theorem whitespace_persisted_dup_not_detected :
    validateCreateTags [⟨some "FB00010"⟩] [⟨"a", none, [⟨some "FB00010 "⟩]⟩] =
      ValidationResult.ok := by
  decide

/-- C6 amended: the validator trims only the submitted side.  A single
submitted tag is reported as a cross-campaign duplicate exactly when its
trimmed value equals, byte for byte, a raw persisted tag. -/
theorem validate_trims_submitted_compares_raw (s : String) (others : List Campaign)
    (h1 : jsTrim s ≠ "")
    (h2 : (List.flatten (others.map (fun c => rawChannelTags c.channels))).contains
      (jsTrim s) = true) :
    validateCreateTags [⟨some s⟩] others =
      ValidationResult.duplicateAcrossCampaigns [jsTrim s] := by
  have hex : extractSubmittedTags [⟨some s⟩] = [jsTrim s] := by
    simp [extractSubmittedTags, h1]
  rw [validateCreateTags, hex, validateTagsCore]
  have hfil : List.filter (fun t =>
      (List.flatten (others.map (fun c => rawChannelTags c.channels))).contains t)
      [jsTrim s] = [jsTrim s] := by
    have hm : ∃ a ∈ others, jsTrim s ∈ rawChannelTags a.channels := by
      simpa using h2
    simp [hm]
  rw [if_neg (by simp : ¬([jsTrim s] = ([] : List String)))]
  rw [if_neg (by simp [dedupFirst, dedupFirstAux])]
  rw [hfil]
  rw [if_neg (by simp)]

/-- Witness for C6's amended theorem: submitted " FB00010" (with leading
whitespace) against persisted "FB00010" is detected. -/
theorem validate_trims_submitted_compares_raw_witness :
    validateCreateTags [⟨some " FB00010"⟩] [⟨"a", none, [⟨some "FB00010"⟩]⟩] =
      ValidationResult.duplicateAcrossCampaigns ["FB00010"] := by
  have h := validate_trims_submitted_compares_raw " FB00010"
    [⟨"a", none, [⟨some "FB00010"⟩]⟩] (by decide) (by decide)
  exact h.trans (by decide)

/-- C7: the update validator excludes exactly the campaign with the matching
document storage identifier: with no intra-submission duplicates, the update
passes iff no submitted tag occurs in any OTHER campaign, and any submitted
tag found in another campaign makes it fail with DuplicateAcrossCampaigns
listing the colliding tags. -/
theorem validate_update_excludes_by_storage_id (cid : String)
    (channels : List Channel) (campaigns : List Campaign)
    (hnodup : (dedupFirst (extractSubmittedTags channels)).length =
      (extractSubmittedTags channels).length) :
    (validateUpdateTags cid channels campaigns = ValidationResult.ok ↔
      ∀ t ∈ extractSubmittedTags channels,
        (collectTagsExcluding cid campaigns).contains t = false) ∧
    (∀ t ∈ extractSubmittedTags channels,
      (collectTagsExcluding cid campaigns).contains t = true →
      validateUpdateTags cid channels campaigns =
        ValidationResult.duplicateAcrossCampaigns
          ((extractSubmittedTags channels).filter
            (fun x => (collectTagsExcluding cid campaigns).contains x))) := by
  by_cases htags : extractSubmittedTags channels = []
  · rw [validateUpdateTags, validateTagsCore, if_pos htags]
    constructor
    · constructor
      · intro _ t ht
        rw [htags] at ht
        exact absurd ht (List.not_mem_nil t)
      · intro _
        rfl
    · intro t ht
      rw [htags] at ht
      exact absurd ht (List.not_mem_nil t)
  · have hbne : ((dedupFirst (extractSubmittedTags channels)).length !=
        (extractSubmittedTags channels).length) = false := by
      rw [hnodup]
      exact bne_self_eq_false _
    rw [validateUpdateTags, validateTagsCore, if_neg htags]
    rw [hbne]
    simp only [Bool.false_eq_true, if_false]
    by_cases hfil : (extractSubmittedTags channels).filter
        (fun t => (collectTagsExcluding cid campaigns).contains t) = []
    · rw [if_pos hfil]
      constructor
      · constructor
        · intro _ t ht
          have := List.filter_eq_nil_iff.mp hfil t ht
          exact Bool.not_eq_true _ ▸ this
        · intro _
          rfl
      · intro t ht hcon
        have := List.filter_eq_nil_iff.mp hfil t ht
        exact absurd hcon this
    · rw [if_neg hfil]
      constructor
      · constructor
        · intro h
          exact absurd h (by simp)
        · intro hall
          exact absurd (List.filter_eq_nil_iff.mpr
            (fun t ht => by rw [hall t ht]; exact Bool.false_ne_true)) hfil
      · intro t ht hcon
        rfl

/-- Witness for C7: campaign A persisted with FB00010; resubmitting FB00010
as an update to A itself passes, while submitting it as an update to another
campaign B fails with DuplicateAcrossCampaigns(["FB00010"]). -/
theorem validate_update_excludes_by_storage_id_witness :
    validateUpdateTags "idA" [⟨some "FB00010"⟩]
      [⟨"idA", some "MK_000001", [⟨some "FB00010"⟩]⟩] = ValidationResult.ok ∧
    validateUpdateTags "idB" [⟨some "FB00010"⟩]
      [⟨"idA", some "MK_000001", [⟨some "FB00010"⟩]⟩,
       ⟨"idB", some "MK_000002", []⟩] =
      ValidationResult.duplicateAcrossCampaigns ["FB00010"] := by
  constructor
  · exact (validate_update_excludes_by_storage_id "idA" [⟨some "FB00010"⟩]
      [⟨"idA", some "MK_000001", [⟨some "FB00010"⟩]⟩] (by decide)).1.mpr (by decide)
  · have h := (validate_update_excludes_by_storage_id "idB" [⟨some "FB00010"⟩]
      [⟨"idA", some "MK_000001", [⟨some "FB00010"⟩]⟩,
       ⟨"idB", some "MK_000002", []⟩] (by decide)).2 "FB00010" (by decide) (by decide)
    exact h.trans (by decide)

theorem createCampaignHandler_dup (freshMongoId newCampaignId : String)
    (data : CampaignSubmission) (st : Store)
    (h : isDuplicateError (createCampaignHandler freshMongoId newCampaignId data st).1 = true) :
    (createCampaignHandler freshMongoId newCampaignId data st).2 = st := by
  unfold createCampaignHandler at h ⊢
  cases hv : validateCreateTags data.channels st.campaigns with
  | ok =>
    rw [hv] at h
    simp [isDuplicateError] at h
  | duplicateInCampaign tags =>
    rfl
  | duplicateAcrossCampaigns tags =>
    rfl

theorem updateCampaignHandler_dup (cid : String) (channels : List Channel) (st : Store)
    (h : isDuplicateError (updateCampaignHandler cid channels st).1 = true) :
    (updateCampaignHandler cid channels st).2 = st := by
  unfold updateCampaignHandler at h ⊢
  by_cases hex : st.campaigns.any (fun c => c.mongoId = cid) = true
  · rw [if_pos hex] at h ⊢
    cases hv : validateUpdateTags cid channels st.campaigns with
    | ok =>
      rw [hv] at h
      simp [isDuplicateError] at h
    | duplicateInCampaign tags =>
      rfl
    | duplicateAcrossCampaigns tags =>
      rfl
  · rw [if_neg hex]

theorem createCampaignHandler_saved (freshMongoId newCampaignId : String)
    (data : CampaignSubmission) (st : Store) (c : String)
    (h : (createCampaignHandler freshMongoId newCampaignId data st).1 = SaveResult.saved c) :
    (createCampaignHandler freshMongoId newCampaignId data st).2.tagCounters =
      syncTagCounters
        (createCampaignHandler freshMongoId newCampaignId data st).2.campaigns
        st.tagCounters := by
  unfold createCampaignHandler at h ⊢
  cases hv : validateCreateTags data.channels st.campaigns with
  | ok =>
    rfl
  | duplicateInCampaign tags =>
    rw [hv] at h
    simp at h
  | duplicateAcrossCampaigns tags =>
    rw [hv] at h
    simp at h

/-- C8: when create or update validation fails with a duplicate error, no
write occurs: the campaign collection and the tag-counter store are exactly
as before the call; and whenever create succeeds, the persisted counters are
the post-save reconciliation of the persisted campaigns. -/
theorem no_write_on_duplicate_validation (freshMongoId newCampaignId cid : String)
    (data : CampaignSubmission) (channels : List Channel) (st : Store) :
    (isDuplicateError (createCampaignHandler freshMongoId newCampaignId data st).1 = true →
      (createCampaignHandler freshMongoId newCampaignId data st).2 = st) ∧
    (isDuplicateError (updateCampaignHandler cid channels st).1 = true →
      (updateCampaignHandler cid channels st).2 = st) ∧
    (∀ c, (createCampaignHandler freshMongoId newCampaignId data st).1 = SaveResult.saved c →
      (createCampaignHandler freshMongoId newCampaignId data st).2.tagCounters =
        syncTagCounters
          (createCampaignHandler freshMongoId newCampaignId data st).2.campaigns
          st.tagCounters) :=
  ⟨createCampaignHandler_dup freshMongoId newCampaignId data st,
   updateCampaignHandler_dup cid channels st,
   fun c => createCampaignHandler_saved freshMongoId newCampaignId data st c⟩

/-- Witness for C8: a create with an internal duplicate and an update
colliding with another campaign both leave the store untouched. -/
theorem no_write_on_duplicate_validation_witness :
    (createCampaignHandler "m1" "MK_000003"
      ⟨none, [⟨some "IG00001"⟩, ⟨some "IG00001"⟩]⟩
      ⟨[⟨"idA", some "MK_000001", [⟨some "FB00010"⟩]⟩,
        ⟨"idB", some "MK_000002", []⟩], []⟩).2 =
      ⟨[⟨"idA", some "MK_000001", [⟨some "FB00010"⟩]⟩,
        ⟨"idB", some "MK_000002", []⟩], []⟩ ∧
    (updateCampaignHandler "idB" [⟨some "FB00010"⟩]
      ⟨[⟨"idA", some "MK_000001", [⟨some "FB00010"⟩]⟩,
        ⟨"idB", some "MK_000002", []⟩], []⟩).2 =
      ⟨[⟨"idA", some "MK_000001", [⟨some "FB00010"⟩]⟩,
        ⟨"idB", some "MK_000002", []⟩], []⟩ := by
  have h := no_write_on_duplicate_validation "m1" "MK_000003" "idB"
    ⟨none, [⟨some "IG00001"⟩, ⟨some "IG00001"⟩]⟩ [⟨some "FB00010"⟩]
    ⟨[⟨"idA", some "MK_000001", [⟨some "FB00010"⟩]⟩,
      ⟨"idB", some "MK_000002", []⟩], []⟩
  exact ⟨h.1 (by decide), h.2.1 (by decide)⟩

/-- C9 counterexample: when the campaign scan fails, the manual sync
endpoint still answers with the success message, not an error — the failure
is not propagated. -/
theorem sync_endpoint_success_on_store_failure :
    (syncEndpoint (Except.error "connection lost") [("IG", 5)]).1 =
      SyncResponse.success "Tag counters synced successfully" ∧
    (syncEndpoint (Except.error "connection lost") [("IG", 5)]).1 ≠
      SyncResponse.serverError := by
  decide

/-- C9 amended: store errors during reconcile are caught and logged inside
`syncTagCounters` and not propagated; the manual sync endpoint reports
success for every store outcome, and on a failed scan the counter store is
left as it was (no retry is attempted). -/
theorem sync_endpoint_swallows_store_errors (scan : Except String (List Campaign))
    (counters : List (String × Nat)) :
    (syncEndpoint scan counters).1 =
      SyncResponse.success "Tag counters synced successfully" ∧
    (∀ e, scan = Except.error e → (syncEndpoint scan counters).2 = counters) := by
  refine ⟨rfl, ?_⟩
  intro e he
  subst he
  rfl

/-- Witness for C9's amended theorem at a concrete failing scan. -/
theorem sync_endpoint_swallows_store_errors_witness :
    (syncEndpoint (Except.error "db down") [("IG", 1)]).1 =
      SyncResponse.success "Tag counters synced successfully" ∧
    (syncEndpoint (Except.error "db down") [("IG", 1)]).2 = [("IG", 1)] := by
  have h := sync_endpoint_swallows_store_errors (Except.error "db down") [("IG", 1)]
  exact ⟨h.1, h.2 "db down" rfl⟩

end TagEngine
